/-
  Verification development for the satellite solana contracts (servers program).

  Shallow embedding of:
  - src/servers/program/src/state.rs     (record types and their borsh layout)
  - src/servers/program/src/program.rs   (address derivation, swap_last)
  and, where the processor code is not part of the provided sources, models
  built from the specification (each such definition is marked
  "Modelled from the spec:").

  Bytes are modelled as natural numbers (the source's u8 values); machine
  integers are Nat with explicit `% 2 ^ w` where overflow matters.
-/
import Mathlib

set_option maxRecDepth 10000

/-- Fixed 32-byte strings: solana `Pubkey` values and the 32-byte name fields. -/
def Bytes32 : Type := { l : List Nat // l.length = 32 }

instance : DecidableEq Bytes32 := fun a b =>
  decidable_of_iff (a.val = b.val) Subtype.ext_iff.symm

/-- Fixed 64-byte strings: the IPFS multihash fields. -/
def Bytes64 : Type := { l : List Nat // l.length = 64 }

instance : DecidableEq Bytes64 := fun a b =>
  decidable_of_iff (a.val = b.val) Subtype.ext_iff.symm

/-- Public keys are 32 bytes (solana_program::pubkey::Pubkey). -/
abbrev Pubkey := Bytes32

/-- The all-zero 32-byte string (Pubkey::default). -/
def zero32 : Bytes32 := ⟨List.replicate 32 0, by simp⟩

/-- A concrete pubkey whose 32 bytes all equal `n % 256`; used for test inputs. -/
def constKey (n : Nat) : Pubkey := ⟨List.replicate 32 (n % 256), by simp⟩

/-- state.rs: `enum StateVersion { Uninitialized, V1 }` — the lifecycle tag. -/
inductive StateVersion
  | Uninitialized
  | V1
deriving DecidableEq, Repr

/-- state.rs: `struct Dweller` — a user. `servers` is a u8 counter, `status`
a borsh String (modelled by its UTF-8 byte list). -/
structure Dweller where
  version : StateVersion
  servers : Nat
  name : Bytes32
  photo_hash : Option Bytes64
  status : List Nat
deriving DecidableEq

/-- state.rs: `struct DwellerServer` — forward membership edge. -/
structure DwellerServer where
  version : StateVersion
  dweller : Pubkey
  server : Pubkey
deriving DecidableEq

/-- state.rs: `struct ServerMember` — inverse membership edge. -/
structure ServerMember where
  version : StateVersion
  server : Pubkey
  dweller : Pubkey
deriving DecidableEq

/-- state.rs: `struct ServerMemberStatus` — invite status. -/
structure ServerMemberStatus where
  version : StateVersion
  server : Pubkey
  invited : Bool
deriving DecidableEq

/-- state.rs: `struct ServerAdministrator`. -/
structure ServerAdministrator where
  version : StateVersion
  server : Pubkey
  dweller : Pubkey
deriving DecidableEq

/-- state.rs: `struct Server` — a community. `members` is u16, the other
three counters are u8. -/
structure Server where
  version : StateVersion
  owner : Pubkey
  authority : Pubkey
  name : Bytes32
  photo_hash : Option Bytes64
  db_hash : Option Bytes64
  members : Nat
  administrators : Nat
  channels : Nat
  groups : Nat
deriving DecidableEq

/-- state.rs: `struct ServerChannel`. `type_id` is a u8. -/
structure ServerChannel where
  version : StateVersion
  server : Pubkey
  type_id : Nat
  name : Bytes32
deriving DecidableEq

/-- state.rs: `struct ServerGroup`. -/
structure ServerGroup where
  version : StateVersion
  server : Pubkey
  name : Bytes32
deriving DecidableEq

/-- state.rs: `struct ServerGroupChannel`. -/
structure ServerGroupChannel where
  version : StateVersion
  server : Pubkey
  group : Pubkey
  channel : Pubkey
deriving DecidableEq

/- Borsh serialization, following the `#[derive(BorshSerialize)]` on the
structs in state.rs: fields in declaration order; enums as a one-byte tag;
`Option<T>` as a presence byte then the payload; `String` as a u32
little-endian length then the bytes; integers little-endian. -/

/-- Borsh encoding of the `StateVersion` enum tag (one byte). -/
def encodeVersion : StateVersion → List Nat
  | StateVersion.Uninitialized => [0]
  | StateVersion.V1 => [1]

/-- Borsh encoding of a u8. -/
def encodeU8 (n : Nat) : List Nat := [n % 256]

/-- Borsh encoding of a u16, little endian. -/
def encodeU16 (n : Nat) : List Nat := [n % 256, n / 256 % 256]

/-- Borsh encoding of a u32, little endian. -/
def encodeU32 (n : Nat) : List Nat :=
  [n % 256, n / 256 % 256, n / 65536 % 256, n / 16777216 % 256]

/-- Borsh encoding of a bool (one byte, 0 or 1). -/
def encodeBool : Bool → List Nat
  | false => [0]
  | true => [1]

/-- Borsh encoding of `Option<[u8; 64]>`: presence byte then the 64 bytes. -/
def encodeOpt64 : Option Bytes64 → List Nat
  | none => [0]
  | some h => 1 :: h.val

/-- Borsh encoding of a `String` given as UTF-8 bytes: u32 length then bytes. -/
def encodeStr (s : List Nat) : List Nat := encodeU32 s.length ++ s

/-- Borsh encoding of `Dweller` per its derive in state.rs. -/
def encodeDweller (d : Dweller) : List Nat :=
  encodeVersion d.version ++ encodeU8 d.servers ++ d.name.val
    ++ encodeOpt64 d.photo_hash ++ encodeStr d.status

/-- Borsh encoding of `DwellerServer` per its derive in state.rs. -/
def encodeDwellerServer (r : DwellerServer) : List Nat :=
  encodeVersion r.version ++ r.dweller.val ++ r.server.val

/-- Borsh encoding of `ServerMember` per its derive in state.rs. -/
def encodeServerMember (r : ServerMember) : List Nat :=
  encodeVersion r.version ++ r.server.val ++ r.dweller.val

/-- Borsh encoding of `ServerMemberStatus` per its derive in state.rs. -/
def encodeServerMemberStatus (r : ServerMemberStatus) : List Nat :=
  encodeVersion r.version ++ r.server.val ++ encodeBool r.invited

/-- Borsh encoding of `ServerAdministrator` per its derive in state.rs. -/
def encodeServerAdministrator (r : ServerAdministrator) : List Nat :=
  encodeVersion r.version ++ r.server.val ++ r.dweller.val

/-- Borsh encoding of `Server` per its derive in state.rs. -/
def encodeServer (r : Server) : List Nat :=
  encodeVersion r.version ++ r.owner.val ++ r.authority.val ++ r.name.val
    ++ encodeOpt64 r.photo_hash ++ encodeOpt64 r.db_hash
    ++ encodeU16 r.members ++ encodeU8 r.administrators
    ++ encodeU8 r.channels ++ encodeU8 r.groups

/-- Borsh encoding of `ServerChannel` per its derive in state.rs. -/
def encodeServerChannel (r : ServerChannel) : List Nat :=
  encodeVersion r.version ++ r.server.val ++ encodeU8 r.type_id ++ r.name.val

/-- Borsh encoding of `ServerGroup` per its derive in state.rs. -/
def encodeServerGroup (r : ServerGroup) : List Nat :=
  encodeVersion r.version ++ r.server.val ++ r.name.val

/-- Borsh encoding of `ServerGroupChannel` per its derive in state.rs. -/
def encodeServerGroupChannel (r : ServerGroupChannel) : List Nat :=
  encodeVersion r.version ++ r.server.val ++ r.group.val ++ r.channel.val

/- Borsh deserialization, following `#[derive(BorshDeserialize)]`: each reader
consumes a prefix of the byte list and returns the value and the rest, or
fails. -/

/-- Read one byte. -/
def readByte : List Nat → Option (Nat × List Nat)
  | [] => none
  | b :: r => some (b, r)

/-- Read the `StateVersion` tag: byte 0 or 1, anything else is an error
(borsh enum deserialization rejects unknown tags). -/
def readVersion (l : List Nat) : Option (StateVersion × List Nat) :=
  match readByte l with
  | none => none
  | some (0, r) => some (StateVersion.Uninitialized, r)
  | some (1, r) => some (StateVersion.V1, r)
  | some _ => none

/-- Read a bool: byte 0 or 1, anything else is an error. -/
def readBool (l : List Nat) : Option (Bool × List Nat) :=
  match readByte l with
  | none => none
  | some (0, r) => some (false, r)
  | some (1, r) => some (true, r)
  | some _ => none

/-- Read a fixed 32-byte field. -/
def read32 (l : List Nat) : Option (Bytes32 × List Nat) :=
  if h : 32 ≤ l.length then
    some (⟨l.take 32, by simp [List.length_take]; omega⟩, l.drop 32)
  else none

/-- Read a fixed 64-byte field. -/
def read64 (l : List Nat) : Option (Bytes64 × List Nat) :=
  if h : 64 ≤ l.length then
    some (⟨l.take 64, by simp [List.length_take]; omega⟩, l.drop 64)
  else none

/-- Read `Option<[u8; 64]>`: presence byte 0 or 1, then the payload. -/
def readOpt64 (l : List Nat) : Option (Option Bytes64 × List Nat) :=
  match readByte l with
  | none => none
  | some (0, r) => some (none, r)
  | some (1, r) =>
    match read64 r with
    | none => none
    | some (h, r2) => some (some h, r2)
  | some _ => none

/-- Read a u16, little endian. -/
def readU16 (l : List Nat) : Option (Nat × List Nat) :=
  match l with
  | b0 :: b1 :: r => some (b0 + 256 * b1, r)
  | _ => none

/-- Read a u32, little endian. -/
def readU32 (l : List Nat) : Option (Nat × List Nat) :=
  match l with
  | b0 :: b1 :: b2 :: b3 :: r =>
    some (b0 + 256 * b1 + 65536 * b2 + 16777216 * b3, r)
  | _ => none

/-- Read a borsh `String`: u32 length then that many bytes. -/
def readStr (l : List Nat) : Option (List Nat × List Nat) :=
  match readU32 l with
  | none => none
  | some (n, r) => if n ≤ r.length then some (r.take n, r.drop n) else none

/-- Decode a `Dweller` from a buffer prefix. -/
def decodeDweller (l : List Nat) : Option (Dweller × List Nat) :=
  match readVersion l with
  | none => none
  | some (v, r1) =>
    match readByte r1 with
    | none => none
    | some (srv, r2) =>
      match read32 r2 with
      | none => none
      | some (nm, r3) =>
        match readOpt64 r3 with
        | none => none
        | some (ph, r4) =>
          match readStr r4 with
          | none => none
          | some (st, r5) => some (⟨v, srv, nm, ph, st⟩, r5)

/-- Decode a `DwellerServer` from a buffer prefix. -/
def decodeDwellerServer (l : List Nat) : Option (DwellerServer × List Nat) :=
  match readVersion l with
  | none => none
  | some (v, r1) =>
    match read32 r1 with
    | none => none
    | some (d, r2) =>
      match read32 r2 with
      | none => none
      | some (s, r3) => some (⟨v, d, s⟩, r3)

/-- Decode a `ServerMember` from a buffer prefix. -/
def decodeServerMember (l : List Nat) : Option (ServerMember × List Nat) :=
  match readVersion l with
  | none => none
  | some (v, r1) =>
    match read32 r1 with
    | none => none
    | some (s, r2) =>
      match read32 r2 with
      | none => none
      | some (d, r3) => some (⟨v, s, d⟩, r3)

/-- Decode a `ServerMemberStatus` from a buffer prefix. -/
def decodeServerMemberStatus (l : List Nat) :
    Option (ServerMemberStatus × List Nat) :=
  match readVersion l with
  | none => none
  | some (v, r1) =>
    match read32 r1 with
    | none => none
    | some (s, r2) =>
      match readBool r2 with
      | none => none
      | some (b, r3) => some (⟨v, s, b⟩, r3)

/-- Decode a `ServerAdministrator` from a buffer prefix. -/
def decodeServerAdministrator (l : List Nat) :
    Option (ServerAdministrator × List Nat) :=
  match readVersion l with
  | none => none
  | some (v, r1) =>
    match read32 r1 with
    | none => none
    | some (s, r2) =>
      match read32 r2 with
      | none => none
      | some (d, r3) => some (⟨v, s, d⟩, r3)

/-- Decode a `Server` from a buffer prefix. -/
def decodeServer (l : List Nat) : Option (Server × List Nat) :=
  match readVersion l with
  | none => none
  | some (v, r1) =>
    match read32 r1 with
    | none => none
    | some (ow, r2) =>
      match read32 r2 with
      | none => none
      | some (au, r3) =>
        match read32 r3 with
        | none => none
        | some (nm, r4) =>
          match readOpt64 r4 with
          | none => none
          | some (ph, r5) =>
            match readOpt64 r5 with
            | none => none
            | some (db, r6) =>
              match readU16 r6 with
              | none => none
              | some (me, r7) =>
                match readByte r7 with
                | none => none
                | some (ad, r8) =>
                  match readByte r8 with
                  | none => none
                  | some (ch, r9) =>
                    match readByte r9 with
                    | none => none
                    | some (gr, r10) =>
                      some (⟨v, ow, au, nm, ph, db, me, ad, ch, gr⟩, r10)

/-- Decode a `ServerChannel` from a buffer prefix. -/
def decodeServerChannel (l : List Nat) : Option (ServerChannel × List Nat) :=
  match readVersion l with
  | none => none
  | some (v, r1) =>
    match read32 r1 with
    | none => none
    | some (s, r2) =>
      match readByte r2 with
      | none => none
      | some (t, r3) =>
        match read32 r3 with
        | none => none
        | some (nm, r4) => some (⟨v, s, t, nm⟩, r4)

/-- Decode a `ServerGroup` from a buffer prefix. -/
def decodeServerGroup (l : List Nat) : Option (ServerGroup × List Nat) :=
  match readVersion l with
  | none => none
  | some (v, r1) =>
    match read32 r1 with
    | none => none
    | some (s, r2) =>
      match read32 r2 with
      | none => none
      | some (nm, r3) => some (⟨v, s, nm⟩, r3)

/-- Decode a `ServerGroupChannel` from a buffer prefix. -/
def decodeServerGroupChannel (l : List Nat) :
    Option (ServerGroupChannel × List Nat) :=
  match readVersion l with
  | none => none
  | some (v, r1) =>
    match read32 r1 with
    | none => none
    | some (s, r2) =>
      match read32 r2 with
      | none => none
      | some (g, r3) =>
        match read32 r3 with
        | none => none
        | some (c, r4) => some (⟨v, s, g, c⟩, r4)

/-- Modelled from the spec: the fixed storage widths (the `LEN` constants used
by processor_tests.rs are not under src/). Spec section 6: lifecycle tag 1
byte, 32-byte names and keys, optional 64-byte hashes prefixed by a presence
byte, little-endian u8/u16 counters; the Dweller status string is budgeted at
32 bytes plus its u32 length prefix (mirroring `SetDwellerStatusInput`). -/
def Dweller.LEN : Nat := 1 + 1 + 32 + 65 + 36

/-- Modelled from the spec: fixed storage width of `Server` (see Dweller.LEN). -/
def Server.LEN : Nat := 1 + 32 + 32 + 32 + 65 + 65 + 2 + 1 + 1 + 1

/-- Modelled from the spec: fixed storage width of `DwellerServer`. -/
def DwellerServer.LEN : Nat := 1 + 32 + 32

/-- Modelled from the spec: fixed storage width of `ServerMember`. -/
def ServerMember.LEN : Nat := 1 + 32 + 32

/-- Modelled from the spec: fixed storage width of `ServerMemberStatus`. -/
def ServerMemberStatus.LEN : Nat := 1 + 32 + 1

/-- Modelled from the spec: fixed storage width of `ServerAdministrator`. -/
def ServerAdministrator.LEN : Nat := 1 + 32 + 32

/-- Modelled from the spec: fixed storage width of `ServerChannel`. -/
def ServerChannel.LEN : Nat := 1 + 32 + 1 + 32

/-- Modelled from the spec: fixed storage width of `ServerGroup`. -/
def ServerGroup.LEN : Nat := 1 + 32 + 32

/-- Modelled from the spec: fixed storage width of `ServerGroupChannel`. -/
def ServerGroupChannel.LEN : Nat := 1 + 32 + 32 + 32

/- program.rs address derivation. `create_base_index_with_seed` composes the
solana SDK primitives `Pubkey::find_program_address` and
`Pubkey::create_with_seed`, both SHA-256 based; SHA-256 is embedded below per
FIPS 180-4 (round constants computed from the prime cube/square roots rather
than transcribed). -/

/-- Integer cube root by bisection (fuel-driven; 200 halvings cover any input
used here). Maintains lo cubed ≤ n < hi cubed. -/
def cbrtAux (n : Nat) : Nat → Nat → Nat → Nat
  | 0, lo, _ => lo
  | f + 1, lo, hi =>
    if hi ≤ lo + 1 then lo
    else
      let m := (lo + hi) / 2
      if m * m * m ≤ n then cbrtAux n f m hi else cbrtAux n f lo m

/-- Integer cube root. -/
def cbrt (n : Nat) : Nat := cbrtAux n 400 0 (n + 1)

/-- The first 64 primes, 2 through 311 (FIPS 180-4 constant derivation). -/
def primes64 : List Nat :=
  [2, 3, 5, 7, 11, 13, 17, 19, 23, 29, 31, 37, 41, 43, 47, 53,
   59, 61, 67, 71, 73, 79, 83, 89, 97, 101, 103, 107, 109, 113, 127, 131,
   137, 139, 149, 151, 157, 163, 167, 173, 179, 181, 191, 193, 197, 199, 211, 223,
   227, 229, 233, 239, 241, 251, 257, 263, 269, 271, 277, 281, 283, 293, 307, 311]

/-- SHA-256 round constants: first 32 bits of the fractional parts of the cube
roots of the first 64 primes. -/
def sha256K : List Nat :=
  primes64.map fun p => cbrt (p * 2 ^ 96) % 2 ^ 32

/-- SHA-256 initial hash value: first 32 bits of the fractional parts of the
square roots of the first 8 primes. -/
def sha256H0 : List Nat :=
  (primes64.take 8).map fun p => Nat.sqrt (p * 2 ^ 64) % 2 ^ 32

/-- 32-bit rotate right. -/
def rotr32 (n x : Nat) : Nat := (x >>> n ||| x <<< (32 - n)) % 2 ^ 32

/-- SHA-256 small sigma 0. -/
def ssig0 (x : Nat) : Nat := rotr32 7 x ^^^ rotr32 18 x ^^^ x >>> 3

/-- SHA-256 small sigma 1. -/
def ssig1 (x : Nat) : Nat := rotr32 17 x ^^^ rotr32 19 x ^^^ x >>> 10

/-- SHA-256 big sigma 0. -/
def bsig0 (x : Nat) : Nat := rotr32 2 x ^^^ rotr32 13 x ^^^ rotr32 22 x

/-- SHA-256 big sigma 1. -/
def bsig1 (x : Nat) : Nat := rotr32 6 x ^^^ rotr32 11 x ^^^ rotr32 25 x

/-- SHA-256 choice function. -/
def sha256Ch (x y z : Nat) : Nat := (x &&& y) ^^^ ((x ^^^ (2 ^ 32 - 1)) &&& z)

/-- SHA-256 majority function. -/
def sha256Maj (x y z : Nat) : Nat := (x &&& y) ^^^ (x &&& z) ^^^ (y &&& z)

/-- Big-endian 8-byte encoding (for the SHA-256 length suffix). -/
def be64 (n : Nat) : List Nat :=
  [n / 2 ^ 56 % 256, n / 2 ^ 48 % 256, n / 2 ^ 40 % 256, n / 2 ^ 32 % 256,
   n / 2 ^ 24 % 256, n / 2 ^ 16 % 256, n / 2  ^ 8 % 256, n % 256]

/-- Big-endian 4-byte encoding of a 32-bit word. -/
def be4 (n : Nat) : List Nat :=
  [n / 2 ^ 24 % 256, n / 2 ^ 16 % 256, n / 2 ^ 8 % 256, n % 256]

/-- SHA-256 padding: append 0x80, zero bytes to 56 mod 64, then the bit length
big endian. -/
def sha256Pad (msg : List Nat) : List Nat :=
  msg ++ [128] ++ List.replicate ((64 - (msg.length + 9) % 64) % 64) 0
    ++ be64 (8 * msg.length)

/-- Split a byte list into 64-byte blocks. -/
def chunks64 : List Nat → List (List Nat)
  | [] => []
  | b :: r => ((b :: r).take 64) :: chunks64 (r.drop 63)
termination_by l => l.length
decreasing_by
  simp [List.length_drop]
  omega

/-- Combine bytes into big-endian 32-bit words, four at a time. -/
def toWords : List Nat → List Nat
  | b0 :: b1 :: b2 :: b3 :: r =>
    (b0 * 2 ^ 24 + b1 * 2 ^ 16 + b2 * 2 ^ 8 + b3) :: toWords r
  | _ => []

/-- Extend the 16-word message schedule by `f` further words. -/
def extendSchedule (w : List Nat) : Nat → List Nat
  | 0 => w
  | f + 1 =>
    let n := w.length
    let nw := (ssig1 (w.getD (n - 2) 0) + w.getD (n - 7) 0
      + ssig0 (w.getD (n - 15) 0) + w.getD (n - 16) 0) % 2 ^ 32
    extendSchedule (w ++ [nw]) f

/-- One SHA-256 round: the working state is the list [a, b, c, d, e, f, g, h]. -/
def sha256Round (s : List Nat) (kw : Nat × Nat) : List Nat :=
  let a := s.getD 0 0
  let b := s.getD 1 0
  let c := s.getD 2 0
  let d := s.getD 3 0
  let e := s.getD 4 0
  let f := s.getD 5 0
  let g := s.getD 6 0
  let h := s.getD 7 0
  let t1 := (h + bsig1 e + sha256Ch e f g + kw.1 + kw.2) % 2 ^ 32
  let t2 := (bsig0 a + sha256Maj a b c) % 2 ^ 32
  [(t1 + t2) % 2 ^ 32, a, b, c, (d + t1) % 2 ^ 32, e, f, g]

/-- SHA-256 compression of one 64-byte block into the running hash. -/
def sha256Block (hs : List Nat) (block : List Nat) : List Nat :=
  let w := extendSchedule (toWords block) 48
  let s := (sha256K.zip w).foldl sha256Round hs
  (hs.zip s).map fun p => (p.1 + p.2) % 2 ^ 32

/-- SHA-256 of a byte list, as 32 bytes. -/
def sha256 (msg : List Nat) : List Nat :=
  (((chunks64 (sha256Pad msg)).foldl sha256Block sha256H0).map be4).flatten

/-- Force a byte list into a `Bytes32`, padding with zeros (SHA-256 output is
always exactly 32 bytes; this wrapper only discharges the length proof). -/
def fit32 (l : List Nat) : Bytes32 :=
  ⟨(l ++ List.replicate 32 0).take 32, by
    simp [List.length_take, List.length_append]⟩

/-- Modular exponentiation by squaring. -/
def powMod (m b : Nat) (e : Nat) : Nat :=
  if e = 0 then 1 % m
  else
    let h := powMod m (b * b % m) (e / 2)
    if e % 2 = 1 then b * h % m else h
termination_by e
decreasing_by omega

/-- The ed25519 field prime 2^255 - 19. -/
def edP : Nat := 2 ^ 255 - 19

/-- The ed25519 curve constant d = -121665/121666 mod p. -/
def edD : Nat := (edP - 121665) * powMod edP 121666 (edP - 2) % edP

/-- Little-endian byte-list to natural number. -/
def leNat (l : List Nat) : Nat := l.foldr (fun b acc => b + 256 * acc) 0

/-- The ed25519 point-decompression check used by
`Pubkey::find_program_address` (curve25519-dalek `CompressedEdwardsY::
decompress`): clear the sign bit, read y little endian, and test whether
(y^2 - 1)/(d y^2 + 1) is a square mod p via the 2^((p-5)/8) exponentiation. -/
def isOnCurve (bytes : List Nat) : Bool :=
  let y := leNat bytes % 2 ^ 255
  let yy := y * y % edP
  let u := (yy + edP - 1) % edP
  let v := (edD * yy + 1) % edP
  let v3 := v * v % edP * v % edP
  let v7 := v3 * v3 % edP * v % edP
  let r := u * v3 % edP * powMod edP (u * v7 % edP) ((edP - 5) / 8) % edP
  let check := v * (r * r % edP) % edP
  check == u || check == (edP - u) % edP

/-- The ASCII bytes of the PDA domain separator string used by
`Pubkey::create_program_address`. -/
def pdaMarker : List Nat :=
  [80, 114, 111, 103, 114, 97, 109, 68, 101, 114, 105, 118, 101, 100,
   65, 100, 100, 114, 101, 115, 115]

/-- `Pubkey::create_program_address([seed_key, [bump]], program_id)` hash:
sha256(seed bytes, bump, program id, marker). -/
def programAddressBytes (seedKey : Pubkey) (bump : Nat) (pid : Pubkey) :
    List Nat :=
  sha256 (seedKey.val ++ [bump] ++ pid.val ++ pdaMarker)

/-- `Pubkey::find_program_address([seed_key], program_id)`: try bump seeds
255 down to 1 — the source loop runs 255 iterations and never tries bump
0 — returning the first candidate hash that is not an ed25519 curve point;
`none` models the (practically unreachable) panic when every tried bump
yields a curve point. -/
def fpaAux (seedKey pid : Pubkey) : Nat → Option (Pubkey × Nat)
  | 0 => none
  | b + 1 =>
    if b = 0 then none
    else
      let h := programAddressBytes seedKey b pid
      if isOnCurve h then fpaAux seedKey pid b else some (fit32 h, b)

/-- find_program_address over the full bump range. -/
def find_program_address (seedKey pid : Pubkey) : Option (Pubkey × Nat) :=
  fpaAux seedKey pid 256

/-- `Pubkey::create_with_seed(base, seed, owner)`: rejects seeds longer than
32 bytes and owners ending in the PDA marker, else
sha256(base, seed, owner). -/
def create_with_seed (base : Pubkey) (seed : List Nat) (owner : Pubkey) :
    Option Pubkey :=
  if 32 < seed.length then none
  else if owner.val.drop 11 = pdaMarker then none
  else some (fit32 (sha256 (base.val ++ seed ++ owner.val)))

/-- ASCII hex digits of a natural number (for the escape fallback below). -/
def hexDigits (n : Nat) : List Nat :=
  (Nat.toDigits 16 n).map Char.toNat

/-- Rust debug escaping of an ASCII byte as used by the `{:?}` formatting of
the seed type name (`&str` Debug, which does NOT escape single quotes):
double quote, backslash, tab, carriage return, newline and null get
two-character escapes, printable ASCII is kept, anything else becomes a
braced unicode escape. -/
def escDebugByte (b : Nat) : List Nat :=
  if b = 34 then [92, 34]
  else if b = 92 then [92, 92]
  else if b = 9 then [92, 116]
  else if b = 13 then [92, 114]
  else if b = 10 then [92, 110]
  else if b = 0 then [92, 48]
  else if 32 ≤ b && b ≤ 126 then [b]
  else [92, 117, 123] ++ hexDigits b ++ [125]

/-- ASCII decimal digits of a natural number. -/
def decDigits (n : Nat) : List Nat :=
  (Nat.toDigits 10 n).map Char.toNat

/-- program.rs line 26: `format!("{:?}{:?}", type_name, index)` — the Debug
rendering of the type-name string (quoted and escaped) followed by the
decimal index. -/
def seedOfTypeIndex (typeName : List Nat) (index : Nat) : List Nat :=
  [34] ++ (typeName.map escDebugByte).flatten ++ [34] ++ decDigits index

/-- program.rs `create_base_index_with_seed`: derive the base from the owner
key via find_program_address, format the seed from type name and index, and
derive the storage address via create_with_seed. Returns (address, base,
bump, seed); `none` collapses the Rust error and panic paths. -/
def create_base_index_with_seed (programId : Pubkey) (typeName : List Nat)
    (seedKey : Pubkey) (index : Nat) :
    Option (Pubkey × Pubkey × Nat × List Nat) :=
  match find_program_address seedKey programId with
  | none => none
  | some (base, bump) =>
    let seed := seedOfTypeIndex typeName index
    match create_with_seed base seed programId with
    | none => none
    | some addr => some (addr, base, bump, seed)

/-- program.rs `create_index_with_seed`: the address component only. -/
def create_index_with_seed (programId : Pubkey) (typeName : List Nat)
    (seedKey : Pubkey) (index : Nat) : Option Pubkey :=
  match create_base_index_with_seed programId typeName seedKey index with
  | none => none
  | some (addr, _, _, _) => some addr

/- program.rs `swap_last`. An `AccountInfo` holds its key and its data cell
(`Rc<RefCell<&mut [u8]>>`); distinct accounts hold distinct cells. The cell
store tracks, per cell, the persisted bytes and the RefCell mutable-borrow
flag; `borrow_mut` on an already-borrowed cell is the runtime panic. -/

/-- The per-cell store: persisted account data and RefCell borrow flags. -/
structure Cells where
  data : Nat → List Nat
  borrowed : Nat → Bool

/-- An account reference: its pubkey (as an id) and its data cell id. -/
structure AccountRef where
  key : Nat
  cell : Nat

/-- Runtime outcomes that abort an operation. -/
inductive RunErr
  | borrowMutPanic
  | indexOutOfRange
  | notAuthorized
  | slotOccupied
deriving DecidableEq, Repr

/-- `RefCell::borrow_mut`: fails (panics) if the cell is already mutably
borrowed, else marks it borrowed. -/
def borrow_mut (c : Nat) (s : Cells) : Option Cells :=
  if s.borrowed c then none
  else some { s with borrowed := fun i => if i = c then true else s.borrowed i }

/-- `mem::swap` of the byte slices held in two cells. -/
def swapCells (a b : Nat) (s : Cells) : Cells :=
  { s with data := fun i =>
      if i = a then s.data b else if i = b then s.data a else s.data i }

/-- `BorshSerialize::serialize(&mut *slice)`: overwrite the head of the cell's
bytes, leaving the tail. -/
def writeHead (c : Nat) (bytes : List Nat) (s : Cells) : Cells :=
  { s with data := fun i =>
      if i = c then bytes ++ (s.data c).drop bytes.length else s.data i }

/-- program.rs lines 71-82, `swap_last::<T>`. `defaultBytes` is the borsh
serialization of `T::default()` (the `Default` impls are not under src/).
Line 75 binds `current_data` to `last.data.borrow_mut()` — the source takes
BOTH mutable borrows from `last`'s cell — and line 76 takes the second;
afterwards the two handles alias `last`'s cell, so the key-guarded
`mem::swap` targets that one cell on both sides. Returns the error outcome
together with the cell store as it stands at that point. -/
def swap_last (defaultBytes : List Nat) (current last : AccountRef)
    (s : Cells) : Except RunErr Unit × Cells :=
  match borrow_mut last.cell s with
  | none => (Except.error RunErr.borrowMutPanic, s)
  | some s1 =>
    match borrow_mut last.cell s1 with
    | none => (Except.error RunErr.borrowMutPanic, s1)
    | some s2 =>
      let s3 := if current.key = last.key then s2
        else swapCells last.cell last.cell s2
      (Except.ok (), writeHead last.cell defaultBytes s3)

/-- An indexed relation as the processor sees it: the owner-side counter and
the relation's slot accounts. Slot `i`'s account is `slotRef i`; distinct
indices have distinct derived addresses (spec invariant 2) and distinct
cells. -/
structure RelState where
  counter : Nat
  cells : Cells

/-- The account holding relation slot `i`. -/
def slotRef (i : Nat) : AccountRef := { key := i, cell := i }

/-- Modelled from the spec: the processor's `removeAt` flow (spec section 4.3;
processor.rs is not under src/): bounds-check the index against the owner
counter, then either zero the final slot directly (`index == last`) or move
the last record into the vacated slot — the data movement being the src
`swap_last` above — and decrement the counter. -/
def removeAt (defaultBytes : List Nat) (st : RelState) (index : Nat) :
    Except RunErr Unit × RelState :=
  if index < st.counter then
    let last := st.counter - 1
    if index = last then
      (Except.ok (),
        { counter := last, cells := writeHead index defaultBytes st.cells })
    else
      match swap_last defaultBytes (slotRef index) (slotRef last) st.cells with
      | (Except.error e, c) => (Except.error e, { st with cells := c })
      | (Except.ok _, c) => (Except.ok (), { counter := last, cells := c })
  else (Except.error RunErr.indexOutOfRange, st)

/- Authorization and the admin-gated operations (spec sections 4.4, 4.5;
processor.rs is not under src/). -/

/-- The processor-visible state of one server: the server record, its
administrator/channel/group relation slots (decoded records; a zero-filled,
never-created slot decodes to the Uninitialized tag), and one generic
indexed relation used for byte-level removal. -/
structure ServerWorld where
  serverKey : Pubkey
  server : Server
  adminSlots : Nat → ServerAdministrator
  channelSlots : Nat → ServerChannel
  groupSlots : Nat → ServerGroup
  rel : RelState

/-- Modelled from the spec: `requireAdministrator` (spec section 4.4) — a
linear scan over indices below the server's `administrators` counter looking
for an Active slot whose `dweller` equals the candidate. -/
def isAdmin (w : ServerWorld) (signer : Pubkey) : Bool :=
  (List.range w.server.administrators).any fun i =>
    decide ((w.adminSlots i).version = StateVersion.V1
      ∧ (w.adminSlots i).dweller = signer)

/-- Some index below the administrators counter holds an Active
administrator record for `signer`. -/
def HasAdminSlot (w : ServerWorld) (signer : Pubkey) : Prop :=
  ∃ i, i < w.server.administrators
    ∧ (w.adminSlots i).version = StateVersion.V1
    ∧ (w.adminSlots i).dweller = signer

/-- The linear scan finds an administrator exactly when one exists below the
counter. -/
theorem isAdmin_iff (w : ServerWorld) (signer : Pubkey) :
    isAdmin w signer = true ↔ HasAdminSlot w signer := by
  unfold isAdmin HasAdminSlot
  simp [List.any_eq_true, List.mem_range]

/-- instruction.rs `AddChannelInput`. -/
structure AddChannelInput where
  type_id : Nat
  name : Bytes32

/-- instruction.rs `CreateGroupInput`. -/
structure CreateGroupInput where
  name : Bytes32

/-- Modelled from the spec: the `AddChannel` operation (instruction.rs docs;
spec sections 4.3-4.5; processor.rs is not under src/): require an Active
administrator slot for the signer (else NotAuthorized), require the slot at
index `channels` to be Uninitialized (else SlotOccupied), then write the
Active channel record there and increment the counter. Returns the outcome
with the state as it stands. -/
def add_channel (signer : Pubkey) (input : AddChannelInput)
    (w : ServerWorld) : Except RunErr Unit × ServerWorld :=
  if isAdmin w signer then
    let idx := w.server.channels
    if (w.channelSlots idx).version = StateVersion.Uninitialized then
      (Except.ok (),
        { w with
          server := { w.server with channels := idx + 1 }
          channelSlots := fun i =>
            if i = idx then
              { version := StateVersion.V1, server := w.serverKey
                type_id := input.type_id, name := input.name }
            else w.channelSlots i })
    else (Except.error RunErr.slotOccupied, w)
  else (Except.error RunErr.notAuthorized, w)

/-- Modelled from the spec: the `CreateGroup` operation, gated and structured
exactly like `AddChannel` but over the groups relation. -/
def create_group (signer : Pubkey) (input : CreateGroupInput)
    (w : ServerWorld) : Except RunErr Unit × ServerWorld :=
  if isAdmin w signer then
    let idx := w.server.groups
    if (w.groupSlots idx).version = StateVersion.Uninitialized then
      (Except.ok (),
        { w with
          server := { w.server with groups := idx + 1 }
          groupSlots := fun i =>
            if i = idx then
              { version := StateVersion.V1, server := w.serverKey
                name := input.name }
            else w.groupSlots i })
    else (Except.error RunErr.slotOccupied, w)
  else (Except.error RunErr.notAuthorized, w)

/-- Modelled from the spec: the `DeleteChannel` operation (instruction.rs
docs; spec sections 4.3-4.5; processor.rs is not under src/): require an
Active administrator slot for the signer (else NotAuthorized), then remove
the channel at `index` from the channels relation — the bounds check, the
swap step (the src swap_last) and the counter decrement being the removeAt
model above. The relation's byte-level slot accounts live in `w.rel.cells`;
its authoritative counter is the server's `channels` field. -/
def delete_channel (signer : Pubkey) (defaultBytes : List Nat) (index : Nat)
    (w : ServerWorld) : Except RunErr Unit × ServerWorld :=
  if isAdmin w signer then
    let r := removeAt defaultBytes
      { counter := w.server.channels, cells := w.rel.cells } index
    (r.1,
      { w with
        server := { w.server with channels := r.2.counter }
        rel := { w.rel with cells := r.2.cells } })
  else (Except.error RunErr.notAuthorized, w)

/-- The operations of the modelled processor fragment. -/
inductive Op
  | removeAtOp : List Nat → Nat → Op
  | addChannelOp : Pubkey → AddChannelInput → Op
  | createGroupOp : Pubkey → CreateGroupInput → Op

/-- Modelled from the spec: the operation dispatcher (spec section 4.5) over
the modelled operations. -/
def process : Op → ServerWorld → Except RunErr Unit × ServerWorld
  | Op.removeAtOp d i, w =>
    let r := removeAt d w.rel i
    (r.1, { w with rel := r.2 })
  | Op.addChannelOp s inp, w => add_channel s inp w
  | Op.createGroupOp s inp, w => create_group s inp w

/-- The durable part of the world: every stored record, every counter and all
account data — everything except the transient RefCell borrow flags, which
die with the aborted process. -/
def persisted (w : ServerWorld) :
    Pubkey × Server × (Nat → ServerAdministrator) × (Nat → ServerChannel)
      × (Nat → ServerGroup) × Nat × (Nat → List Nat) :=
  (w.serverKey, w.server, w.adminSlots, w.channelSlots, w.groupSlots,
    w.rel.counter, w.rel.cells.data)

/- The InitializeServer flow (instruction.rs docs for `InitializeServer`,
the `flow` test assertions, spec section 8; processor.rs is not under
src/). -/

/-- instruction.rs `InitializeServerInput`. -/
structure InitializeServerIn where
  name : Bytes32

/-- The accounts of an `InitializeServer` call: the signing dweller, the new
server, and the two derived index-0 membership accounts. -/
structure InitWorld where
  dweller : Dweller
  server : Server
  dwellerServer : DwellerServer
  serverMember : ServerMember

/-- Modelled from the spec: the `InitializeServer` operation (processor.rs is
not under src/): initialize the server record owned by the signing dweller,
found the membership by activating the index-0 `DwellerServer` (under the
dweller) and `ServerMember` (under the server), and set the counters —
`members = 1` on the server, `servers` incremented on the dweller. -/
def initialize_server (dwellerKey serverKey : Pubkey)
    (input : InitializeServerIn) (w : InitWorld) : InitWorld :=
  { dweller := { w.dweller with servers := w.dweller.servers + 1 }
    server :=
      { version := StateVersion.V1, owner := dwellerKey
        authority := dwellerKey, name := input.name
        photo_hash := none, db_hash := none
        members := 1, administrators := 0, channels := 0, groups := 0 }
    dwellerServer :=
      { version := StateVersion.V1, dweller := dwellerKey
        server := serverKey }
    serverMember :=
      { version := StateVersion.V1, server := serverKey
        dweller := dwellerKey } }

/- Helper lemmas and concrete instances used by the claim theorems and
witnesses. -/

/-- The lifecycle tag always encodes to one byte. -/
theorem encodeVersion_length (v : StateVersion) :
    (encodeVersion v).length = 1 := by
  cases v <;> rfl

/-- A bool always encodes to one byte. -/
theorem encodeBool_length (b : Bool) : (encodeBool b).length = 1 := by
  cases b <;> rfl

/-- Whatever its outcome, `swap_last` never changes any persisted account
data before failing: its only data write comes after both borrows succeed,
and its borrow acquisitions touch only the transient borrow flags. -/
theorem swap_last_error_data (d : List Nat) (cur last : AccountRef)
    (s : Cells) (e : RunErr)
    (_h : (swap_last d cur last s).1 = Except.error e) :
    (swap_last d cur last s).2.data = s.data := by
  unfold swap_last borrow_mut
  by_cases hb : s.borrowed last.cell <;> simp [hb]

/-- On any error outcome, `removeAt` has changed neither the owner counter
nor any slot's persisted bytes. -/
theorem removeAt_error_persists (d : List Nat) (st : RelState) (i : Nat)
    (e : RunErr) (h : (removeAt d st i).1 = Except.error e) :
    (removeAt d st i).2.counter = st.counter
      ∧ (removeAt d st i).2.cells.data = st.cells.data := by
  unfold removeAt at h ⊢
  by_cases h1 : i < st.counter
  · rw [if_pos h1] at h ⊢
    by_cases h2 : i = st.counter - 1
    · rw [if_pos h2] at h
      exact Except.noConfusion h
    · rw [if_neg h2] at h ⊢
      rcases hs : swap_last d (slotRef i) (slotRef (st.counter - 1)) st.cells
        with ⟨r, c⟩
      cases r with
      | error e2 =>
        have hd := swap_last_error_data d (slotRef i)
          (slotRef (st.counter - 1)) st.cells e2 (by rw [hs])
        rw [hs] at hd
        exact ⟨rfl, hd⟩
      | ok u =>
        rw [hs] at h
        exact Except.noConfusion h
  · rw [if_neg h1] at h ⊢
    exact ⟨rfl, rfl⟩

/-- The outcome component of `swap_last` is always the double-borrow panic:
both borrow acquisitions target last's cell, so the second (or, when the
cell was already borrowed, the first) fails. -/
theorem swap_last_fst_panics (d : List Nat) (cur last : AccountRef)
    (s : Cells) :
    (swap_last d cur last s).1 = Except.error RunErr.borrowMutPanic := by
  unfold swap_last borrow_mut
  by_cases hb : s.borrowed last.cell <;> simp [hb]

/-- In the swap branch (index strictly below last), `removeAt` aborts with
the `swap_last` panic. -/
theorem removeAt_swap_panics (d : List Nat) (st : RelState) (i : Nat)
    (h1 : i < st.counter) (h2 : i ≠ st.counter - 1) :
    (removeAt d st i).1 = Except.error RunErr.borrowMutPanic := by
  unfold removeAt
  rw [if_pos h1, if_neg h2]
  rcases hs : swap_last d (slotRef i) (slotRef (st.counter - 1)) st.cells
    with ⟨r, c⟩
  have hr : r = Except.error RunErr.borrowMutPanic := by
    have h3 := swap_last_fst_panics d (slotRef i) (slotRef (st.counter - 1))
      st.cells
    rw [hs] at h3
    exact h3
  subst hr
  rfl

/-- A five-record relation: counter 5, slot i holding the two bytes [i, i],
nothing borrowed. -/
def relFive : RelState :=
  { counter := 5
    cells := { data := fun i => [i, i], borrowed := fun _ => false } }

/-- An empty relation: counter 0. -/
def emptyRel : RelState :=
  { counter := 0
    cells := { data := fun _ => [], borrowed := fun _ => false } }

/-- The ASCII bytes of the type name DwellerServer. -/
def tagDwellerServer : List Nat :=
  [68, 119, 101, 108, 108, 101, 114, 83, 101, 114, 118, 101, 114]

/-- The all-zero 64-byte string. -/
def zeroHash64 : Bytes64 := ⟨List.replicate 64 0, by simp⟩

/-- A dweller with no photo hash and empty status. -/
def dwellerNoPhoto : Dweller :=
  { version := StateVersion.V1, servers := 0, name := zero32
    photo_hash := none, status := [] }

/-- The same dweller with a photo hash present. -/
def dwellerWithPhoto : Dweller :=
  { dwellerNoPhoto with photo_hash := some zeroHash64 }

/-- An Active administrator record for the dweller with key constKey 7. -/
def adminRec : ServerAdministrator :=
  { version := StateVersion.V1, server := constKey 9, dweller := constKey 7 }

/-- A zero-filled (never created) administrator slot. -/
def uninitAdmin : ServerAdministrator :=
  { version := StateVersion.Uninitialized, server := zero32, dweller := zero32 }

/-- A zero-filled channel slot. -/
def uninitChannel : ServerChannel :=
  { version := StateVersion.Uninitialized, server := zero32
    type_id := 0, name := zero32 }

/-- A zero-filled group slot. -/
def uninitGroup : ServerGroup :=
  { version := StateVersion.Uninitialized, server := zero32, name := zero32 }

/-- A server world whose administrators relation has one Active slot, for
the dweller with key constKey 7. -/
def worldWithAdmin : ServerWorld :=
  { serverKey := constKey 9
    server :=
      { version := StateVersion.V1, owner := constKey 7
        authority := constKey 7, name := zero32
        photo_hash := none, db_hash := none
        members := 1, administrators := 1, channels := 0, groups := 0 }
    adminSlots := fun _ => adminRec
    channelSlots := fun _ => uninitChannel
    groupSlots := fun _ => uninitGroup
    rel := emptyRel }

/-- The same world with an empty administrators relation. -/
def worldNoAdmin : ServerWorld :=
  { worldWithAdmin with
    server := { worldWithAdmin.server with administrators := 0 }
    adminSlots := fun _ => uninitAdmin }

/-- worldWithAdmin with two active channels whose byte-level slot accounts
hold the bytes [i, i] at slot i, nothing borrowed. -/
def worldTwoChannels : ServerWorld :=
  { worldWithAdmin with
    server := { worldWithAdmin.server with channels := 2 }
    rel :=
      { counter := 2
        cells := { data := fun i => [i, i], borrowed := fun _ => false } } }

/-- A concrete channel payload. -/
def chanInput : AddChannelInput := { type_id := 1, name := constKey 3 }

/-- A concrete group payload. -/
def grpInput : CreateGroupInput := { name := constKey 4 }

/- Claim theorems. -/

/-- C1: the claim says removeAt(owner, index) with counter n ≥ 1 and
index < n-1 copies the record bytes at slot n-1 into slot index and
zero-fills slot n-1. On the code it fails: at counter 5, index 2, the
swap step (src swap_last) takes both mutable borrows from the last
account's data cell and panics, so the operation aborts with the counter
still 5, slot 2 still holding its old bytes [2, 2] and slot 4 still
holding [4, 4] — slot 2 never receives slot 4's record. -/
theorem C1_remove_at_swap_never_copies :
    (removeAt (List.replicate 65 0) relFive 2).1
        = Except.error RunErr.borrowMutPanic
      ∧ (removeAt (List.replicate 65 0) relFive 2).2.counter = 5
      ∧ (removeAt (List.replicate 65 0) relFive 2).2.cells.data 2 = [2, 2]
      ∧ (removeAt (List.replicate 65 0) relFive 2).2.cells.data 4 = [4, 4] :=
  ⟨rfl, rfl, rfl, rfl⟩

/-- C2: the claim says swap_last's two mutable borrows come from two
distinct cells (one from current, one from last) so the call completes
without a runtime borrow failure. On the code both borrows come from
`last.data` (program.rs line 75 borrows `last`, not `current`), so every
call — equal or distinct keys, any prior borrow state — aborts with the
RefCell double-mutable-borrow panic. -/
theorem C2_swap_last_always_borrow_panics (defaultBytes : List Nat)
    (current last : AccountRef) (s : Cells) :
    (swap_last defaultBytes current last s).1
      = Except.error RunErr.borrowMutPanic := by
  unfold swap_last borrow_mut
  by_cases hb : s.borrowed last.cell <;> simp [hb]

/-- C4: address derivation is deterministic — `create_base_index_with_seed`
is a pure function of (program id, type name, owner key, index); identical
inputs give identical (address, base, bump, seed) outputs. -/
theorem C4_derivation_deterministic (p p' k k' : Pubkey)
    (t t' : List Nat) (i i' : Nat)
    (hp : p = p') (ht : t = t') (hk : k = k') (hi : i = i') :
    create_base_index_with_seed p t k i
      = create_base_index_with_seed p' t' k' i' := by
  subst hp
  subst ht
  subst hk
  subst hi
  rfl

/-- Witness for C4 at the DwellerServer type name, a concrete owner key and
index 0. -/
theorem C4_witness :
    create_base_index_with_seed zero32 tagDwellerServer (constKey 1) 0
      = create_base_index_with_seed zero32 tagDwellerServer (constKey 1) 0 :=
  C4_derivation_deterministic zero32 zero32 (constKey 1) (constKey 1)
    tagDwellerServer tagDwellerServer 0 0 rfl rfl rfl rfl

/-- C5: decoding a zero-filled buffer of each record type's full storage
width succeeds and yields the Uninitialized lifecycle tag, for all nine
record types. -/
theorem C5_zero_buffer_decodes_uninitialized :
    (decodeDweller (List.replicate Dweller.LEN 0)).map
        (fun p => p.1.version) = some StateVersion.Uninitialized
      ∧ (decodeServer (List.replicate Server.LEN 0)).map
        (fun p => p.1.version) = some StateVersion.Uninitialized
      ∧ (decodeDwellerServer (List.replicate DwellerServer.LEN 0)).map
        (fun p => p.1.version) = some StateVersion.Uninitialized
      ∧ (decodeServerMember (List.replicate ServerMember.LEN 0)).map
        (fun p => p.1.version) = some StateVersion.Uninitialized
      ∧ (decodeServerMemberStatus
          (List.replicate ServerMemberStatus.LEN 0)).map
        (fun p => p.1.version) = some StateVersion.Uninitialized
      ∧ (decodeServerAdministrator
          (List.replicate ServerAdministrator.LEN 0)).map
        (fun p => p.1.version) = some StateVersion.Uninitialized
      ∧ (decodeServerChannel (List.replicate ServerChannel.LEN 0)).map
        (fun p => p.1.version) = some StateVersion.Uninitialized
      ∧ (decodeServerGroup (List.replicate ServerGroup.LEN 0)).map
        (fun p => p.1.version) = some StateVersion.Uninitialized
      ∧ (decodeServerGroupChannel
          (List.replicate ServerGroupChannel.LEN 0)).map
        (fun p => p.1.version) = some StateVersion.Uninitialized := by
  decide

/-- C6 counterexample: the claim says every record type has a static
serialized width, but the borsh derive in state.rs makes `Dweller`'s
width depend on the optional photo hash (and the status string): with the
hash absent the encoding is 39 bytes, with it present 103 bytes. -/
theorem C6_counterexample :
    (encodeDweller dwellerNoPhoto).length
      ≠ (encodeDweller dwellerWithPhoto).length := by
  decide

/-- C6 (amended): every record type without Option or String fields —
DwellerServer, ServerMember, ServerMemberStatus, ServerAdministrator,
ServerChannel, ServerGroup, ServerGroupChannel — serializes to its static
fixed width; Dweller and Server vary with their optional hashes and the
status string. -/
theorem C6_fixed_width_without_variable_fields :
    (∀ r : DwellerServer,
        (encodeDwellerServer r).length = DwellerServer.LEN)
      ∧ (∀ r : ServerMember,
        (encodeServerMember r).length = ServerMember.LEN)
      ∧ (∀ r : ServerMemberStatus,
        (encodeServerMemberStatus r).length = ServerMemberStatus.LEN)
      ∧ (∀ r : ServerAdministrator,
        (encodeServerAdministrator r).length = ServerAdministrator.LEN)
      ∧ (∀ r : ServerChannel,
        (encodeServerChannel r).length = ServerChannel.LEN)
      ∧ (∀ r : ServerGroup,
        (encodeServerGroup r).length = ServerGroup.LEN)
      ∧ (∀ r : ServerGroupChannel,
        (encodeServerGroupChannel r).length = ServerGroupChannel.LEN) := by
  refine ⟨fun r => ?_, fun r => ?_, fun r => ?_, fun r => ?_, fun r => ?_,
    fun r => ?_, fun r => ?_⟩
  · simp [encodeDwellerServer, DwellerServer.LEN, encodeVersion_length,
      r.dweller.2, r.server.2]
  · simp [encodeServerMember, ServerMember.LEN, encodeVersion_length,
      r.server.2, r.dweller.2]
  · simp [encodeServerMemberStatus, ServerMemberStatus.LEN,
      encodeVersion_length, encodeBool_length, r.server.2]
  · simp [encodeServerAdministrator, ServerAdministrator.LEN,
      encodeVersion_length, r.server.2, r.dweller.2]
  · simp [encodeServerChannel, ServerChannel.LEN, encodeVersion_length,
      encodeU8, r.server.2, r.name.2]
  · simp [encodeServerGroup, ServerGroup.LEN, encodeVersion_length,
      r.server.2, r.name.2]
  · simp [encodeServerGroupChannel, ServerGroupChannel.LEN,
      encodeVersion_length, r.server.2, r.group.2, r.channel.2]

/-- C7: removeAt on an owner whose relation counter is 0 fails with
IndexOutOfRange for every index — it returns the error and the unchanged
state, never a silent no-op. -/
theorem C7_remove_from_empty_always_rejected (defaultBytes : List Nat)
    (st : RelState) (index : Nat) (h : st.counter = 0) :
    removeAt defaultBytes st index
      = (Except.error RunErr.indexOutOfRange, st) := by
  unfold removeAt
  simp [h]

/-- Witness for C7 at the empty relation and index 0. -/
theorem C7_witness :
    removeAt [] emptyRel 0 = (Except.error RunErr.indexOutOfRange, emptyRel) :=
  C7_remove_from_empty_always_rejected [] emptyRel 0 rfl

/-- C8: after InitializeServer signed by dweller U, the server's owner is
U's key, its members counter is 1, and the founding index-0 ServerMember
and DwellerServer records are Active (tag V1) and point at U. -/
theorem C8_initialize_server_founds_membership (dk sk : Pubkey)
    (input : InitializeServerIn) (w : InitWorld) :
    (initialize_server dk sk input w).server.owner = dk
      ∧ (initialize_server dk sk input w).server.members = 1
      ∧ (initialize_server dk sk input w).serverMember.version
        = StateVersion.V1
      ∧ (initialize_server dk sk input w).serverMember.dweller = dk
      ∧ (initialize_server dk sk input w).dwellerServer.version
        = StateVersion.V1
      ∧ (initialize_server dk sk input w).dwellerServer.dweller = dk :=
  ⟨rfl, rfl, rfl, rfl, rfl, rfl⟩

/-- C9 counterexample: the claim says every administrator-gated operation —
naming DeleteChannel among them — succeeds once an Active administrator
slot for the signer exists. On the code an authorized DeleteChannel of a
non-last channel can never succeed: with the Active slot present and two
channels, deleting index 0 aborts with the swap_last double-borrow panic
instead of succeeding. -/
theorem C9_counterexample :
    HasAdminSlot worldTwoChannels (constKey 7)
      ∧ (delete_channel (constKey 7) (List.replicate 66 0) 0
          worldTwoChannels).1 = Except.error RunErr.borrowMutPanic
      ∧ (delete_channel (constKey 7) (List.replicate 66 0) 0
          worldTwoChannels).1 ≠ Except.ok () := by
  refine ⟨⟨0, by decide, rfl, rfl⟩, rfl, ?_⟩
  intro h
  exact Except.noConfusion h

/-- C9 (amended): the administrator-gated operations AddChannel,
DeleteChannel and CreateGroup all fail with NotAuthorized exactly when no
index below the server's administrators counter holds an Active
ServerAdministrator record for the signer (the check being the linear scan
of isAdmin, see isAdmin_iff); once such a slot exists the add-type
operations succeed given a free target slot, while DeleteChannel passes
the gate but aborts with the swap_last double-borrow panic for every
non-last index. -/
theorem C9_admin_gated_operations (w : ServerWorld) (signer : Pubkey)
    (cin : AddChannelInput) (gin : CreateGroupInput) (d : List Nat)
    (i : Nat) :
    (¬ HasAdminSlot w signer →
        add_channel signer cin w = (Except.error RunErr.notAuthorized, w)
          ∧ create_group signer gin w
            = (Except.error RunErr.notAuthorized, w)
          ∧ delete_channel signer d i w
            = (Except.error RunErr.notAuthorized, w))
      ∧ (HasAdminSlot w signer →
        ((w.channelSlots w.server.channels).version
            = StateVersion.Uninitialized →
          (add_channel signer cin w).1 = Except.ok ())
          ∧ ((w.groupSlots w.server.groups).version
            = StateVersion.Uninitialized →
          (create_group signer gin w).1 = Except.ok ())
          ∧ (i < w.server.channels → i ≠ w.server.channels - 1 →
            (delete_channel signer d i w).1
              = Except.error RunErr.borrowMutPanic)) := by
  constructor
  · intro hno
    have hb : isAdmin w signer = false := by
      rcases hba : isAdmin w signer with _ | _
      · rfl
      · exact absurd ((isAdmin_iff w signer).mp hba) hno
    refine ⟨?_, ?_, ?_⟩
    · unfold add_channel
      rw [hb]
      simp
    · unfold create_group
      rw [hb]
      simp
    · unfold delete_channel
      rw [hb]
      simp
  · intro hyes
    have hb : isAdmin w signer = true := (isAdmin_iff w signer).mpr hyes
    refine ⟨?_, ?_, ?_⟩
    · intro hfree
      unfold add_channel
      rw [hb]
      simp [hfree]
    · intro hfree
      unfold create_group
      rw [hb]
      simp [hfree]
    · intro hlt hne
      unfold delete_channel
      rw [hb, if_pos rfl]
      exact removeAt_swap_panics d
        { counter := w.server.channels, cells := w.rel.cells } i hlt hne

/-- Witness for C9 (amended): with one Active administrator slot both
add-type operations go through and the authorized delete of a non-last
channel panics; with an empty administrators relation DeleteChannel fails
with NotAuthorized and leaves the world unchanged. -/
theorem C9_amended_witness :
    ((add_channel (constKey 7) chanInput worldWithAdmin).1 = Except.ok ()
        ∧ (create_group (constKey 7) grpInput worldWithAdmin).1
          = Except.ok ())
      ∧ (delete_channel (constKey 7) (List.replicate 66 0) 0
          worldTwoChannels).1 = Except.error RunErr.borrowMutPanic
      ∧ delete_channel (constKey 7) [] 0 worldNoAdmin
        = (Except.error RunErr.notAuthorized, worldNoAdmin) := by
  refine ⟨?_, ?_, ?_⟩
  · have hyes : HasAdminSlot worldWithAdmin (constKey 7) :=
      ⟨0, by decide, rfl, rfl⟩
    have h := (C9_admin_gated_operations worldWithAdmin (constKey 7)
      chanInput grpInput [] 0).2 hyes
    exact ⟨h.1 rfl, h.2.1 rfl⟩
  · have hyes : HasAdminSlot worldTwoChannels (constKey 7) :=
      ⟨0, by decide, rfl, rfl⟩
    exact ((C9_admin_gated_operations worldTwoChannels (constKey 7)
      chanInput grpInput (List.replicate 66 0) 0).2 hyes).2.2
      (by decide) (by decide)
  · have hno : ¬ HasAdminSlot worldNoAdmin (constKey 7) := by
      rintro ⟨j, hj, _⟩
      have hz : worldNoAdmin.server.administrators = 0 := rfl
      omega
    exact ((C9_admin_gated_operations worldNoAdmin (constKey 7)
      chanInput grpInput [] 0).1 hno).2.2

/-- C10: every modelled operation is atomic with respect to failure — on
any error outcome, every persisted component (the server record, all
relation slots, the owner counter, all account data) is exactly as before
the operation: all checks precede all writes, and the swap step's panic
occurs before its data write. -/
theorem C10_error_implies_no_mutation (op : Op) (w : ServerWorld)
    (e : RunErr) (h : (process op w).1 = Except.error e) :
    persisted (process op w).2 = persisted w := by
  cases op with
  | removeAtOp d i =>
    have h' : (removeAt d w.rel i).1 = Except.error e := h
    have hp := removeAt_error_persists d w.rel i e h'
    show persisted { w with rel := (removeAt d w.rel i).2 } = persisted w
    unfold persisted
    rw [hp.1, hp.2]
  | addChannelOp s inp =>
    have h' : (add_channel s inp w).1 = Except.error e := h
    show persisted (add_channel s inp w).2 = persisted w
    unfold add_channel at h' ⊢
    by_cases ha : isAdmin w s
    · by_cases hc : (w.channelSlots w.server.channels).version
          = StateVersion.Uninitialized
      · simp [ha, hc] at h'
      · simp [ha, hc]
    · simp [ha]
  | createGroupOp s inp =>
    have h' : (create_group s inp w).1 = Except.error e := h
    show persisted (create_group s inp w).2 = persisted w
    unfold create_group at h' ⊢
    by_cases ha : isAdmin w s
    · by_cases hc : (w.groupSlots w.server.groups).version
          = StateVersion.Uninitialized
      · simp [ha, hc] at h'
      · simp [ha, hc]
    · simp [ha]

/-- Witness for C10: removing index 0 from the world whose relation counter
is 0 errors with IndexOutOfRange and persists nothing. -/
theorem C10_witness :
    persisted (process (Op.removeAtOp [] 0) worldNoAdmin).2
      = persisted worldNoAdmin :=
  C10_error_implies_no_mutation (Op.removeAtOp [] 0) worldNoAdmin
    RunErr.indexOutOfRange rfl
